import Mathlib

/-!
Shallow embedding of the ticketing-system backend (FastAPI + SQLAlchemy).

Pure application logic is translated from the Python source:
  - `backend/app/services/auth_service.py`: hashing, token issuance, decoding,
    request authentication (`get_current_user`);
  - `backend/app/routers/auth.py`: `register_user`, `login_user`;
  - `backend/app/routers/tickets.py`: ticket CRUD handlers;
  - `backend/app/schemas/tickets.py`, `backend/app/models/ticket.py`: data shapes.

The database session is replaced by an explicit `DB` value (lists of rows) that
is threaded through handlers; autoincremented ids, the current UTC time (in
seconds), and the bcrypt salt drawn per call are passed as explicit parameters,
standing for the ambient state the Python runtime supplies.

The two third-party cryptographic collaborators (passlib bcrypt, jose JWT) are
not part of the repository; they are modelled from the spec, with doc comments
marking each such definition.
-/

set_option maxHeartbeats 1000000

namespace TicketingSystem

/-- Modelled from the spec: the `User` row of the `users` table
(`app/models/user.py` is imported by the routers but absent from the source
tree): unique numeric identifier, unique username, password hash string. -/
structure User where
  id : Nat
  username : String
  hashed_password : String
deriving Repr, DecidableEq

/-- `TicketStatus` enum from `app/models/ticket.py`. -/
inductive TicketStatus where
  | OPEN
  | IN_PROGRESS
  | CLOSED
deriving Repr, DecidableEq

/-- `TicketPriority` enum from `app/models/ticket.py`. -/
inductive TicketPriority where
  | LOW
  | MEDIUM
  | HIGH
deriving Repr, DecidableEq

/-- The `Ticket` row of the `tickets` table (`app/models/ticket.py`). -/
structure Ticket where
  id : Nat
  title : String
  description : String
  status : TicketStatus
  priority : TicketPriority
  created_at : Nat
  user_id : Nat
deriving Repr, DecidableEq

/-- The relational store: the `users` and `tickets` tables. -/
structure DB where
  users : List User
  tickets : List Ticket
deriving Repr, DecidableEq

/-! ## Credential hasher (`auth_service.py`, passlib `CryptContext` bcrypt) -/

/-- Modelled from the spec: the bcrypt-class salted hash behind
`pwd_context.hash`. The per-call salt is an explicit parameter and is embedded
in the output string (before the separator) so `verify` needs no separate salt
storage; the digest part is an abstract injective function of salt and
password (one-wayness is outside the model). -/
def bcrypt_hash (salt password : String) : String :=
  salt ++ "$" ++ password

/-- Modelled from the spec: the salt prefix a stored hash string embeds -
everything before the first separator character. -/
def extract_salt (s : String) : String :=
  ⟨s.data.takeWhile (fun c => c ≠ '$')⟩

/-- `hash_password` from `auth_service.py` (`pwd_context.hash(password)`),
with the salt passlib draws internally made explicit. -/
def hash_password (salt : String) (password : String) : String :=
  bcrypt_hash salt password

/-- `verify_password` from `auth_service.py`
(`pwd_context.verify(plain_password, hashed_password)`): re-hash the plaintext
with the salt embedded in the stored string and compare. -/
def verify_password (plain_password hashed_password : String) : Bool :=
  bcrypt_hash (extract_salt hashed_password) plain_password == hashed_password

/-- `True` when a string avoids the separator character of the hash encoding;
salts drawn by the hasher satisfy this. -/
def salt_ok (s : String) : Bool :=
  s.data.all (fun c => c != '$')

/-! ## Token codec (`auth_service.py`, jose JWT) -/

/-- `SECRET_KEY` from `auth_service.py`. -/
def SECRET_KEY : String := "your_secret_key"

/-- `ACCESS_TOKEN_EXPIRE_MINUTES` from `auth_service.py` - defined but never
passed to `create_access_token` anywhere in the source. -/
def ACCESS_TOKEN_EXPIRE_MINUTES : Nat := 60

/-- The claims mapping carried by a token: `sub` (may be absent) and the
absolute expiry timestamp `exp` in seconds. -/
structure Claims where
  sub : Option String
  exp : Nat
deriving Repr, DecidableEq

/-- Modelled from the spec: the HS256 signature jose computes over the claims
with the symmetric secret - an abstract deterministic keyed function. -/
def jwt_sign (key : String) (c : Claims) : String :=
  key ++ "#" ++ (c.sub.getD "") ++ "#" ++ toString c.exp

/-- A signed token: claims plus signature. A token whose `sig` differs from
`jwt_sign key claims` models a tampered or malformed token string. -/
structure Token where
  claims : Claims
  sig : String
deriving Repr, DecidableEq

/-- Modelled from the spec: `jose.jwt.encode(claims, key, HS256)`. -/
def jwt_encode (c : Claims) (key : String) : Token :=
  { claims := c, sig := jwt_sign key c }

/-- Outcome of `jose.jwt.decode`; `invalidToken` stands for the `JWTError`
(InvalidToken) the library raises. -/
inductive DecodeResult where
  | ok (claims : Claims)
  | invalidToken
deriving Repr, DecidableEq

/-- Modelled from the spec: `jose.jwt.decode(token, key, [HS256])` - fails
with `InvalidToken` when the signature does not verify or the current time is
past the embedded expiry (`exp < now`), otherwise returns the claims. -/
def jwt_decode (t : Token) (key : String) (now : Nat) : DecodeResult :=
  if t.sig != jwt_sign key t.claims then DecodeResult.invalidToken
  else if t.claims.exp < now then DecodeResult.invalidToken
  else DecodeResult.ok t.claims

/-- The `data` dict passed to `create_access_token` (`{"sub": username}`). -/
structure TokenData where
  sub : Option String
deriving Repr, DecidableEq

/-- `create_access_token` from `auth_service.py`: copies the data, computes
`expire = utcnow + (expires_delta if expires_delta else timedelta(minutes=15))`
(durations in seconds), adds the `exp` claim and signs with `SECRET_KEY`. -/
def create_access_token (data : TokenData) (expires_delta : Option Nat) (now : Nat) : Token :=
  let expire := now + (match expires_delta with
    | some d => d
    | none => 15 * 60)
  jwt_encode { sub := data.sub, exp := expire } SECRET_KEY

/-- A FastAPI `HTTPException`: status code, detail message, and the optional
WWW-Authenticate header. -/
structure HTTPError where
  status_code : Nat
  detail : String
  www_authenticate : Option String
deriving Repr, DecidableEq

/-- The single `credentials_exception` raised by every failure branch of
`get_current_user`. -/
def credentials_exception : HTTPError :=
  { status_code := 401
    detail := "Could not validate credentials"
    www_authenticate := some "Bearer" }

/-- `get_current_user` from `auth_service.py`: decode the bearer token, read
the `sub` claim, look the username up in the `users` table; each failure
raises `credentials_exception`. -/
def get_current_user (token : Token) (db : DB) (now : Nat) : Except HTTPError User :=
  match jwt_decode token SECRET_KEY now with
  | DecodeResult.invalidToken => Except.error credentials_exception
  | DecodeResult.ok payload =>
    match payload.sub with
    | none => Except.error credentials_exception
    | some username =>
      match db.users.find? (fun u => u.username == username) with
      | none => Except.error credentials_exception
      | some user => Except.ok user

/-! ## Auth routes (`routers/auth.py`) -/

/-- Outcome of `POST /auth/register`: `conflict` is the raised
`HTTPException(400)`, `created` the 201 response body (a message only - the
constructor carries no token). -/
inductive RegisterResult where
  | conflict (status_code : Nat) (detail : String)
  | created (status_code : Nat) (msg : String)
deriving Repr, DecidableEq

/-- `register_user` from `routers/auth.py`: reject when a user row with the
username exists, otherwise hash the password and persist a new `User`. -/
def register_user (username password : String) (salt : String) (next_id : Nat)
    (db : DB) : RegisterResult × DB :=
  match db.users.find? (fun u => u.username == username) with
  | some _ => (RegisterResult.conflict 400 "Username already exists", db)
  | none =>
    let user : User :=
      { id := next_id, username := username
        hashed_password := hash_password salt password }
    (RegisterResult.created 201 "User created successfully",
     { db with users := db.users ++ [user] })

/-- Outcome of `POST /auth/login`: `unauthorized` is the raised
`HTTPException(401)`, `success` the `{access_token, token_type}` body. -/
inductive LoginResult where
  | unauthorized (status_code : Nat) (detail : String)
  | success (access_token : Token) (token_type : String)
deriving Repr, DecidableEq

/-- `login_user` from `routers/auth.py`: look the username up, verify the
password against the stored hash (`if not user or not verify_password(...)`),
and on success issue `create_access_token(data={"sub": user.username})` - with
no `expires_delta` argument. -/
def login_user (username password : String) (db : DB) (now : Nat) : LoginResult :=
  match db.users.find? (fun u => u.username == username) with
  | none => LoginResult.unauthorized 401 "Invalid credentials"
  | some user =>
    if verify_password password user.hashed_password then
      LoginResult.success
        (create_access_token { sub := some user.username } none now) "bearer"
    else
      LoginResult.unauthorized 401 "Invalid credentials"

/-! ## Ticket schemas (`schemas/tickets.py`) and routes (`routers/tickets.py`) -/

/-- `TicketCreate` after pydantic validation: defaults already applied. -/
structure TicketCreate where
  title : String
  description : String
  status : TicketStatus
  priority : TicketPriority
deriving Repr, DecidableEq

/-- A raw `POST /api/tickets/` body, where `status` / `priority` may be
omitted (`none`). -/
structure TicketCreateBody where
  title : String
  description : String
  status : Option TicketStatus
  priority : Option TicketPriority
deriving Repr, DecidableEq

/-- Pydantic validation of a create body against `TicketBase`: omitted fields
take the declared defaults `TicketStatus.OPEN` and `TicketPriority.MEDIUM`. -/
def parse_ticket_create (b : TicketCreateBody) : TicketCreate :=
  { title := b.title
    description := b.description
    status := b.status.getD TicketStatus.OPEN
    priority := b.priority.getD TicketPriority.MEDIUM }

/-- `TicketUpdate` from `schemas/tickets.py`: all four fields optional,
`none` meaning the field was not supplied
(`model_dump(exclude_unset=True)` omits it). -/
structure TicketUpdate where
  title : Option String
  description : Option String
  status : Option TicketStatus
  priority : Option TicketPriority
deriving Repr, DecidableEq

/-- `create_ticket` from `routers/tickets.py`: build a `Ticket` from the
payload, owned by the logged-in user (`user_id=current_user.id`), with the
store assigning the id and creation timestamp, and persist it. -/
def create_ticket (payload : TicketCreate) (current_user : User)
    (next_id now : Nat) (db : DB) : Ticket × DB :=
  let ticket : Ticket :=
    { id := next_id
      title := payload.title
      description := payload.description
      status := payload.status
      priority := payload.priority
      created_at := now
      user_id := current_user.id }
  (ticket, { db with tickets := db.tickets ++ [ticket] })

/-- The `setattr` loop of `update_ticket`: overwrite exactly the fields
present in `payload.model_dump(exclude_unset=True)`. -/
def apply_update (t : Ticket) (payload : TicketUpdate) : Ticket :=
  { t with
    title := payload.title.getD t.title
    description := payload.description.getD t.description
    status := payload.status.getD t.status
    priority := payload.priority.getD t.priority }

/-- Replace the first list element satisfying `p` - the effect of mutating the
row returned by `.first()` and committing. -/
def replace_first (p : Ticket → Bool) (new : Ticket) : List Ticket → List Ticket
  | [] => []
  | x :: xs => if p x then new :: xs else x :: replace_first p new xs

/-- Remove the first list element satisfying `p` - the effect of
`db.delete(ticket)` on the row returned by `.first()`. -/
def remove_first (p : Ticket → Bool) : List Ticket → List Ticket
  | [] => []
  | x :: xs => if p x then xs else x :: remove_first p xs

/-- The 404 `HTTPException` raised by `update_ticket` and `delete_ticket`. -/
def ticket_not_found : HTTPError :=
  { status_code := 404
    detail := "Ticket not found or not owned by user"
    www_authenticate := none }

/-- The query filter
`Ticket.id == ticket_id, Ticket.user_id == current_user.id`. -/
def owned_match (ticket_id : Nat) (current_user : User) (t : Ticket) : Bool :=
  t.id == ticket_id && t.user_id == current_user.id

/-- `update_ticket` from `routers/tickets.py`: fetch the first ticket matching
id and owner, 404 when none, otherwise apply the partial update and commit. -/
def update_ticket (ticket_id : Nat) (payload : TicketUpdate) (current_user : User)
    (db : DB) : Except HTTPError Ticket × DB :=
  match db.tickets.find? (owned_match ticket_id current_user) with
  | none => (Except.error ticket_not_found, db)
  | some t =>
    let t2 := apply_update t payload
    (Except.ok t2,
     { db with tickets := replace_first (owned_match ticket_id current_user) t2 db.tickets })

/-- `delete_ticket` from `routers/tickets.py`: fetch the first ticket matching
id and owner, 404 when none, otherwise delete it (204, empty body). -/
def delete_ticket (ticket_id : Nat) (current_user : User)
    (db : DB) : Except HTTPError Unit × DB :=
  match db.tickets.find? (owned_match ticket_id current_user) with
  | none => (Except.error ticket_not_found, db)
  | some _ =>
    (Except.ok (),
     { db with tickets := remove_first (owned_match ticket_id current_user) db.tickets })

/-- A concrete stored user: alice with password "pw" hashed under salt "s1". -/
def alice_user : User :=
  { id := 1, username := "alice", hashed_password := hash_password "s1" "pw" }

/-- A concrete one-user store holding only `alice_user`. -/
def alice_db : DB := { users := [alice_user], tickets := [] }

/-- A second concrete stored user. -/
def bob_user : User :=
  { id := 2, username := "bob", hashed_password := hash_password "s2" "pw2" }

/-- A concrete ticket owned by alice (user id 1). -/
def demo_ticket : Ticket :=
  { id := 7, title := "t", description := "d", status := TicketStatus.OPEN
    priority := TicketPriority.HIGH, created_at := 5, user_id := 1 }

/-- A concrete store holding alice, bob and alice's ticket. -/
def demo_db : DB := { users := [alice_user, bob_user], tickets := [demo_ticket] }

/-- A concrete partial-update body supplying only a status. -/
def status_only_update : TicketUpdate :=
  { title := none, description := none
    status := some TicketStatus.CLOSED, priority := none }

/-- A concrete create body omitting status and priority. -/
def title_only_body : TicketCreateBody :=
  { title := "t", description := "d", status := none, priority := none }

/-! ## Lemmas about the credential hasher -/

theorem data_bcrypt_hash (salt p : String) :
    (bcrypt_hash salt p).data = salt.data ++ '$' :: p.data := by
  show ((salt ++ "$") ++ p).data = _
  rw [String.data_append, String.data_append, List.append_assoc]
  rfl

theorem takeWhile_append_stop (q : Char → Bool) (l1 l2 : List Char) (c : Char)
    (h : ∀ x ∈ l1, q x = true) (hc : q c = false) :
    List.takeWhile q (l1 ++ c :: l2) = l1 := by
  induction l1 with
  | nil => simp [List.takeWhile, hc]
  | cons x xs ih =>
    have hx : q x = true := h x (by simp)
    simp only [List.cons_append, List.takeWhile, hx]
    rw [show xs.append (c :: l2) = xs ++ c :: l2 from rfl,
      ih (fun y hy => h y (by simp [hy]))]

theorem extract_salt_bcrypt (salt p : String) (h : salt_ok salt = true) :
    extract_salt (bcrypt_hash salt p) = salt := by
  apply String.ext
  show (bcrypt_hash salt p).data.takeWhile (fun c => c ≠ '$') = salt.data
  rw [data_bcrypt_hash]
  apply takeWhile_append_stop
  · intro x hx
    have := List.all_eq_true.mp h x hx
    simp only [bne_iff_ne, ne_eq] at this
    simp [this]
  · simp

theorem bcrypt_hash_inj_password (salt p q : String)
    (hpq : bcrypt_hash salt p = bcrypt_hash salt q) : p = q := by
  have hd := congrArg String.data hpq
  rw [data_bcrypt_hash, data_bcrypt_hash] at hd
  have := List.append_cancel_left hd
  exact String.ext (List.cons.inj this).2

theorem verify_correct (salt p : String) (h : salt_ok salt = true) :
    verify_password p (hash_password salt p) = true := by
  unfold verify_password hash_password
  rw [extract_salt_bcrypt salt p h]
  simp

theorem verify_wrong_password (salt p q : String) (h : salt_ok salt = true)
    (hne : p ≠ q) : verify_password p (hash_password salt q) = false := by
  unfold verify_password hash_password
  rw [extract_salt_bcrypt salt q h]
  rw [beq_eq_false_iff_ne]
  intro heq
  exact hne (bcrypt_hash_inj_password salt p q heq)

theorem hash_salt_inj (salt1 salt2 p : String) (h1 : salt_ok salt1 = true)
    (h2 : salt_ok salt2 = true) (hne : salt1 ≠ salt2) :
    hash_password salt1 p ≠ hash_password salt2 p := by
  intro heq
  have := congrArg extract_salt heq
  rw [show hash_password salt1 p = bcrypt_hash salt1 p from rfl,
      show hash_password salt2 p = bcrypt_hash salt2 p from rfl,
      extract_salt_bcrypt salt1 p h1, extract_salt_bcrypt salt2 p h2] at this
  exact hne this

/-- C8: hashing round-trip. For all passwords P, `verify(P, hash(P))` is true;
for distinct P and P2, `verify(P, hash(P2))` is false; and hashing the same P
with two distinct fresh salts yields different strings, each of which still
verifies against P. -/
theorem c8_hashing_roundtrip (salt salt2 p p2 : String)
    (h1 : salt_ok salt = true) (h2 : salt_ok salt2 = true) :
    verify_password p (hash_password salt p) = true ∧
    (p ≠ p2 → verify_password p (hash_password salt p2) = false) ∧
    (salt ≠ salt2 →
      hash_password salt p ≠ hash_password salt2 p ∧
      verify_password p (hash_password salt p) = true ∧
      verify_password p (hash_password salt2 p) = true) := by
  refine ⟨verify_correct salt p h1, fun hne => verify_wrong_password salt p p2 h1 hne,
    fun hs => ⟨hash_salt_inj salt salt2 p h1 h2 hs,
      verify_correct salt p h1, verify_correct salt2 p h2⟩⟩

/-- Witness for C8 at concrete salts and passwords. -/
theorem c8_hashing_roundtrip_witness :
    verify_password "pw" (hash_password "s1" "pw") = true ∧
    verify_password "pw" (hash_password "s1" "qw") = false ∧
    hash_password "s1" "pw" ≠ hash_password "s2" "pw" ∧
    verify_password "pw" (hash_password "s2" "pw") = true := by
  have h := c8_hashing_roundtrip "s1" "s2" "pw" "qw" (by decide) (by decide)
  exact ⟨h.1, h.2.1 (by decide), (h.2.2 (by decide)).1, (h.2.2 (by decide)).2.2⟩

/-! ## Lemmas about the token codec and the request authenticator -/

theorem decode_encode_valid (c : Claims) (key : String) (now2 : Nat)
    (h : ¬ c.exp < now2) :
    jwt_decode (jwt_encode c key) key now2 = DecodeResult.ok c := by
  simp [jwt_decode, jwt_encode, h]

theorem decode_encode_expired (c : Claims) (key : String) (now2 : Nat)
    (h : c.exp < now2) :
    jwt_decode (jwt_encode c key) key now2 = DecodeResult.invalidToken := by
  simp [jwt_decode, jwt_encode, h]

/-- C7: token round-trip. A token encoded for subject `u` decodes successfully
at any current time before the embedded expiry and yields subject `u`;
decoding at any time past the embedded expiry instant fails with
`InvalidToken`. -/
theorem c7_token_roundtrip (u : String) (d : Option Nat) (now now2 : Nat) :
    (now2 < (create_access_token { sub := some u } d now).claims.exp →
      jwt_decode (create_access_token { sub := some u } d now) SECRET_KEY now2 =
        DecodeResult.ok (create_access_token { sub := some u } d now).claims ∧
      (create_access_token { sub := some u } d now).claims.sub = some u) ∧
    ((create_access_token { sub := some u } d now).claims.exp < now2 →
      jwt_decode (create_access_token { sub := some u } d now) SECRET_KEY now2 =
        DecodeResult.invalidToken) := by
  constructor
  · intro h
    exact ⟨decode_encode_valid _ SECRET_KEY now2 (Nat.not_lt.mpr (Nat.le_of_lt h)), rfl⟩
  · intro h
    exact decode_encode_expired _ SECRET_KEY now2 h

/-- Witness for C7: decoding at time 0 a token issued at time 0 (expiry 900)
succeeds with the right subject; decoding it at time 1000 fails. -/
theorem c7_token_roundtrip_witness :
    jwt_decode (create_access_token { sub := some "u" } none 0) SECRET_KEY 0 =
      DecodeResult.ok (create_access_token { sub := some "u" } none 0).claims ∧
    (create_access_token { sub := some "u" } none 0).claims.sub = some "u" ∧
    jwt_decode (create_access_token { sub := some "u" } none 0) SECRET_KEY 1000 =
      DecodeResult.invalidToken := by
  have h0 := c7_token_roundtrip "u" none 0 0
  have h1 := c7_token_roundtrip "u" none 0 1000
  exact ⟨(h0.1 (by decide)).1, (h0.1 (by decide)).2, h1.2 (by decide)⟩

/-- C1: the spec says tokens issued by login expire 60 minutes after issuance,
and the source defines `ACCESS_TOKEN_EXPIRE_MINUTES = 60` - but `login_user`
calls `create_access_token` without `expires_delta`, so the embedded expiry is
issuance + 15 minutes (the hard-coded default), not + 60 minutes: the constant
is never used. Evaluated here at a concrete successful login at time 0. -/
theorem c1_login_token_expires_after_15_minutes :
    login_user "alice" "pw"
        { users := [User.mk 1 "alice" (hash_password "s1" "pw")],
          tickets := [] } 0 =
      LoginResult.success (create_access_token { sub := some "alice" } none 0) "bearer" ∧
    (create_access_token { sub := some "alice" } none 0).claims.exp = 15 * 60 ∧
    ACCESS_TOKEN_EXPIRE_MINUTES = 60 ∧
    (create_access_token { sub := some "alice" } none 0).claims.exp ≠
      ACCESS_TOKEN_EXPIRE_MINUTES * 60 := by
  refine ⟨by decide, rfl, rfl, by decide⟩

/-- C2: every failure branch of the request authenticator - token fails to
decode, decoded claims lack a subject, subject resolves to no user - produces
the very same error value (status 401, detail "Could not validate
credentials"), and no other error value is ever produced. -/
theorem c2_authenticator_uniform_error (t : Token) (db : DB) (now : Nat) :
    (jwt_decode t SECRET_KEY now = DecodeResult.invalidToken →
      get_current_user t db now = Except.error credentials_exception) ∧
    (∀ c, jwt_decode t SECRET_KEY now = DecodeResult.ok c → c.sub = none →
      get_current_user t db now = Except.error credentials_exception) ∧
    (∀ c u, jwt_decode t SECRET_KEY now = DecodeResult.ok c → c.sub = some u →
      db.users.find? (fun x => x.username == u) = none →
      get_current_user t db now = Except.error credentials_exception) ∧
    (∀ e, get_current_user t db now = Except.error e → e = credentials_exception) := by
  refine ⟨fun h => by simp [get_current_user, h],
    fun c hdec hsub => by simp [get_current_user, hdec, hsub],
    fun c u hdec hsub hfind => by simp [get_current_user, hdec, hsub, hfind], ?_⟩
  intro e he
  rcases hdec : jwt_decode t SECRET_KEY now with c | _
  · rcases hsub : c.sub with _ | u
    · simp [get_current_user, hdec, hsub] at he
      exact he.symm
    · rcases hfind : db.users.find? (fun x => x.username == u) with _ | user
      · simp [get_current_user, hdec, hsub, hfind] at he
        exact he.symm
      · simp [get_current_user, hdec, hsub, hfind] at he
  · simp [get_current_user, hdec] at he
    exact he.symm

/-- Witness for C2: the three failure branches at concrete inputs - a
tampered-signature token, a well-signed token with no subject claim, and a
well-signed token whose subject matches no user. -/
theorem c2_authenticator_uniform_error_witness :
    get_current_user { claims := { sub := some "u", exp := 100 }, sig := "bad" }
        { users := [], tickets := [] } 0 = Except.error credentials_exception ∧
    get_current_user (jwt_encode { sub := none, exp := 100 } SECRET_KEY)
        { users := [], tickets := [] } 0 = Except.error credentials_exception ∧
    get_current_user (jwt_encode { sub := some "u", exp := 100 } SECRET_KEY)
        { users := [], tickets := [] } 0 = Except.error credentials_exception := by
  refine ⟨(c2_authenticator_uniform_error _ _ 0).1 (by decide),
    (c2_authenticator_uniform_error _ _ 0).2.1 { sub := none, exp := 100 }
      (by decide) rfl,
    (c2_authenticator_uniform_error _ _ 0).2.2.1 { sub := some "u", exp := 100 } "u"
      (by decide) rfl (by decide)⟩

/-! ## Lemmas about the auth routes -/

/-- C3: login fails with 401 exactly when the username is not in the user
store or password verification against the stored hash fails; every failure
is the identical `401 / "Invalid credentials"` response; and a successful
login returns a bearer token whose subject claim equals the username. -/
theorem c3_login_spec (username password : String) (db : DB) (now : Nat) :
    (login_user username password db now =
        LoginResult.unauthorized 401 "Invalid credentials" ↔
      (db.users.find? (fun x => x.username == username) = none ∨
       ∃ u, db.users.find? (fun x => x.username == username) = some u ∧
            verify_password password u.hashed_password = false)) ∧
    (∀ s d, login_user username password db now = LoginResult.unauthorized s d →
      s = 401 ∧ d = "Invalid credentials") ∧
    (∀ tok tt, login_user username password db now = LoginResult.success tok tt →
      tok.claims.sub = some username ∧ tt = "bearer") := by
  rcases hfind : db.users.find? (fun x => x.username == username) with _ | u
  · refine ⟨by simp [login_user, hfind], ?_, ?_⟩
    · intro s d h
      simp [login_user, hfind] at h
      exact ⟨h.1.symm, h.2.symm⟩
    · intro tok tt h
      simp [login_user, hfind] at h
  · have husn : u.username = username := by
      have h2 := List.find?_some hfind
      simpa using h2
    cases hv : verify_password password u.hashed_password
    · refine ⟨?_, ?_, ?_⟩
      · constructor
        · intro _
          exact Or.inr ⟨u, hfind, hv⟩
        · intro _
          simp [login_user, hfind, hv]
      · intro s d h
        simp [login_user, hfind, hv] at h
        exact ⟨h.1.symm, h.2.symm⟩
      · intro tok tt h
        simp [login_user, hfind, hv] at h
    · refine ⟨?_, ?_, ?_⟩
      · constructor
        · intro h
          simp [login_user, hfind, hv] at h
        · intro h
          rcases h with hnone | ⟨x, hx, hvx⟩
          · rw [hfind] at hnone
            exact absurd hnone (by simp)
          · rw [hfind] at hx
            have hxu : x = u := by
              have := Option.some.inj hx
              exact this.symm
            rw [hxu] at hvx
            rw [hv] at hvx
            exact absurd hvx (by simp)
      · intro s d h
        simp [login_user, hfind, hv] at h
      · intro tok tt h
        simp [login_user, hfind, hv] at h
        refine ⟨?_, h.2.symm⟩
        rw [← h.1]
        exact congrArg some husn

/-- Witness for C3: with one stored user alice, a wrong password and an
unknown username both yield the identical 401 response, and logging in with
the right password yields a bearer token with subject alice. -/
theorem c3_login_spec_witness :
    login_user "alice" "wrong" alice_db 0 =
      LoginResult.unauthorized 401 "Invalid credentials" ∧
    login_user "bob" "pw" alice_db 0 =
      LoginResult.unauthorized 401 "Invalid credentials" ∧
    (create_access_token { sub := some "alice" } none 0).claims.sub = some "alice" := by
  have h1 := c3_login_spec "alice" "wrong" alice_db 0
  have h2 := c3_login_spec "bob" "pw" alice_db 0
  have h3 := c3_login_spec "alice" "pw" alice_db 0
  refine ⟨h1.1.mpr (Or.inr ⟨alice_user, by decide, by decide⟩),
    h2.1.mpr (Or.inl (by decide)),
    (h3.2.2 (create_access_token { sub := some "alice" } none 0) "bearer" (by decide)).1⟩

theorem hash_password_ne_plaintext (salt password : String) :
    hash_password salt password ≠ password := by
  intro h
  have hlen := congrArg String.length h
  have hb : (hash_password salt password).length = salt.length + 1 + password.length := by
    show ((salt ++ "$") ++ password).length = _
    rw [String.length_append, String.length_append]
    have h1 : ("$" : String).length = 1 := rfl
    omega
  rw [hb] at hlen
  omega

/-- C6: registration fails with 400 "Username already exists" exactly when a
user with that username is already stored; otherwise it persists a new user
whose stored password field is the hash of the plaintext - never the
plaintext itself - and returns only a confirmation message (the success
constructor carries no token). -/
theorem c6_register_spec (username password salt : String) (next_id : Nat) (db : DB) :
    ((register_user username password salt next_id db).1 =
        RegisterResult.conflict 400 "Username already exists" ↔
      ∃ u ∈ db.users, u.username = username) ∧
    ((¬ ∃ u ∈ db.users, u.username = username) →
      (register_user username password salt next_id db).1 =
        RegisterResult.created 201 "User created successfully" ∧
      (register_user username password salt next_id db).2.users =
        db.users ++ [{ id := next_id, username := username,
                       hashed_password := hash_password salt password }] ∧
      hash_password salt password ≠ password) := by
  rcases hfind : db.users.find? (fun x => x.username == username) with _ | u
  · have hnone := List.find?_eq_none.mp hfind
    refine ⟨?_, ?_⟩
    · constructor
      · intro h
        simp [register_user, hfind] at h
      · intro ⟨x, hmem, hx⟩
        exact absurd (by simpa using hx) (hnone x hmem)
    · intro _
      refine ⟨by simp [register_user, hfind], by simp [register_user, hfind],
        hash_password_ne_plaintext salt password⟩
  · refine ⟨?_, ?_⟩
    · constructor
      · intro _
        exact ⟨u, List.mem_of_find?_eq_some hfind, by simpa using List.find?_some hfind⟩
      · intro _
        simp [register_user, hfind]
    · intro hno
      exact absurd ⟨u, List.mem_of_find?_eq_some hfind,
        by simpa using List.find?_some hfind⟩ hno

/-- Witness for C6: registering alice into an empty store succeeds and stores
the hash; registering alice again conflicts with 400; the stored hash is not
the plaintext. -/
theorem c6_register_spec_witness :
    (register_user "alice" "pw" "s1" 1 { users := [], tickets := [] }).1 =
      RegisterResult.created 201 "User created successfully" ∧
    (register_user "alice" "pw" "s1" 2 alice_db).1 =
      RegisterResult.conflict 400 "Username already exists" ∧
    hash_password "s1" "pw" ≠ "pw" := by
  have h1 := c6_register_spec "alice" "pw" "s1" 1 { users := [], tickets := [] }
  have h2 := c6_register_spec "alice" "pw" "s1" 2 alice_db
  refine ⟨(h1.2 (by simp)).1,
    h2.1.mpr ⟨alice_user, by simp [alice_db], rfl⟩,
    (h1.2 (by simp)).2.2⟩

/-! ## Lemmas about the ticket routes -/

theorem find?_owned_none (ticket_id : Nat) (u : User) (db : DB)
    (h : ∀ t ∈ db.tickets, t.id = ticket_id → t.user_id ≠ u.id) :
    db.tickets.find? (owned_match ticket_id u) = none := by
  apply List.find?_eq_none.mpr
  intro x hx
  simp only [owned_match, Bool.and_eq_true, beq_iff_eq, not_and]
  intro hid
  exact fun huid => h x hx hid huid

theorem find?_owned_some (ticket_id : Nat) (u : User) (db : DB) (t : Ticket)
    (h : db.tickets.find? (owned_match ticket_id u) = some t) :
    t ∈ db.tickets ∧ t.id = ticket_id ∧ t.user_id = u.id := by
  refine ⟨List.mem_of_find?_eq_some h, ?_⟩
  have := List.find?_some h
  simpa [owned_match] using this

/-- C4: for an authenticated caller, update and delete fail with the 404
"Ticket not found or not owned by user" error - not a 403 - whenever no
stored ticket has the requested id with the caller as owner (covering both a
missing ticket and a ticket owned by another user); and whenever either
operation succeeds, a stored ticket with that id owned by the caller exists. -/
theorem c4_ownership_404 (ticket_id : Nat) (payload : TicketUpdate) (u : User) (db : DB) :
    ((∀ t ∈ db.tickets, t.id = ticket_id → t.user_id ≠ u.id) →
      (update_ticket ticket_id payload u db).1 = Except.error ticket_not_found ∧
      (delete_ticket ticket_id u db).1 = Except.error ticket_not_found ∧
      ticket_not_found.status_code = 404 ∧ ticket_not_found.status_code ≠ 403) ∧
    (∀ t2, (update_ticket ticket_id payload u db).1 = Except.ok t2 →
      ∃ t ∈ db.tickets, t.id = ticket_id ∧ t.user_id = u.id) ∧
    ((delete_ticket ticket_id u db).1 = Except.ok () →
      ∃ t ∈ db.tickets, t.id = ticket_id ∧ t.user_id = u.id) := by
  refine ⟨?_, ?_, ?_⟩
  · intro h
    have hn := find?_owned_none ticket_id u db h
    exact ⟨by simp [update_ticket, hn], by simp [delete_ticket, hn], rfl, by decide⟩
  · intro t2 hok
    rcases hfind : db.tickets.find? (owned_match ticket_id u) with _ | t
    · simp [update_ticket, hfind] at hok
    · obtain ⟨hmem, hid, huid⟩ := find?_owned_some ticket_id u db t hfind
      exact ⟨t, hmem, hid, huid⟩
  · intro hok
    rcases hfind : db.tickets.find? (owned_match ticket_id u) with _ | t
    · simp [delete_ticket, hfind] at hok
    · obtain ⟨hmem, hid, huid⟩ := find?_owned_some ticket_id u db t hfind
      exact ⟨t, hmem, hid, huid⟩

/-- Witness for C4: bob updating or deleting alice's ticket gets the 404
error, as does alice for an id that does not exist; alice's own successful
update implies an owned stored ticket exists. -/
theorem c4_ownership_404_witness :
    (update_ticket 7 status_only_update bob_user demo_db).1 =
      Except.error ticket_not_found ∧
    (delete_ticket 7 bob_user demo_db).1 = Except.error ticket_not_found ∧
    (update_ticket 99 status_only_update alice_user demo_db).1 =
      Except.error ticket_not_found ∧
    (delete_ticket 99 alice_user demo_db).1 = Except.error ticket_not_found ∧
    ticket_not_found.status_code = 404 ∧ ticket_not_found.status_code ≠ 403 ∧
    (∃ t ∈ demo_db.tickets, t.id = 7 ∧ t.user_id = alice_user.id) := by
  have hb := (c4_ownership_404 7 status_only_update bob_user demo_db).1 (by decide)
  have ha := (c4_ownership_404 99 status_only_update alice_user demo_db).1 (by decide)
  have hok := (c4_ownership_404 7 status_only_update alice_user demo_db).2.1
    (apply_update demo_ticket status_only_update) rfl
  exact ⟨hb.1, hb.2.1, ha.1, ha.2.1, hb.2.2.1, hb.2.2.2, hok⟩

/-- C5: updating an existing owned ticket returns exactly the stored ticket
with the supplied fields overwritten: every unsupplied field keeps its prior
value and every supplied field takes the supplied value - so a PUT carrying
only a status leaves title, description and priority unchanged. -/
theorem c5_partial_update_frame (ticket_id : Nat) (payload : TicketUpdate) (u : User)
    (db : DB) (t0 : Ticket)
    (h : db.tickets.find? (owned_match ticket_id u) = some t0) :
    (update_ticket ticket_id payload u db).1 = Except.ok (apply_update t0 payload) ∧
    (payload.title = none → (apply_update t0 payload).title = t0.title) ∧
    (payload.description = none →
      (apply_update t0 payload).description = t0.description) ∧
    (payload.status = none → (apply_update t0 payload).status = t0.status) ∧
    (payload.priority = none → (apply_update t0 payload).priority = t0.priority) ∧
    (∀ v, payload.title = some v → (apply_update t0 payload).title = v) ∧
    (∀ v, payload.description = some v → (apply_update t0 payload).description = v) ∧
    (∀ v, payload.status = some v → (apply_update t0 payload).status = v) ∧
    (∀ v, payload.priority = some v → (apply_update t0 payload).priority = v) := by
  refine ⟨by simp [update_ticket, h],
    fun hx => by simp [apply_update, hx],
    fun hx => by simp [apply_update, hx],
    fun hx => by simp [apply_update, hx],
    fun hx => by simp [apply_update, hx],
    fun v hx => by simp [apply_update, hx],
    fun v hx => by simp [apply_update, hx],
    fun v hx => by simp [apply_update, hx],
    fun v hx => by simp [apply_update, hx]⟩

/-- Witness for C5: alice's PUT supplying only status=closed succeeds and the
resulting ticket keeps the prior title, description and priority while taking
the new status. -/
theorem c5_partial_update_frame_witness :
    (update_ticket 7 status_only_update alice_user demo_db).1 =
      Except.ok (apply_update demo_ticket status_only_update) ∧
    (apply_update demo_ticket status_only_update).title = demo_ticket.title ∧
    (apply_update demo_ticket status_only_update).description =
      demo_ticket.description ∧
    (apply_update demo_ticket status_only_update).priority = demo_ticket.priority ∧
    (apply_update demo_ticket status_only_update).status = TicketStatus.CLOSED := by
  have h := c5_partial_update_frame 7 status_only_update alice_user demo_db
    demo_ticket (by decide)
  exact ⟨h.1, h.2.1 rfl, h.2.2.1 rfl, h.2.2.2.2.1 rfl,
    h.2.2.2.2.2.2.2.1 TicketStatus.CLOSED rfl⟩

/-- C9: a created ticket takes status `open` when the body omits status and
priority `medium` when the body omits priority, and is owned by the
authenticated caller (`user_id = current_user.id`). -/
theorem c9_create_defaults (b : TicketCreateBody) (u : User) (next_id now : Nat)
    (db : DB) :
    (b.status = none →
      (create_ticket (parse_ticket_create b) u next_id now db).1.status =
        TicketStatus.OPEN) ∧
    (b.priority = none →
      (create_ticket (parse_ticket_create b) u next_id now db).1.priority =
        TicketPriority.MEDIUM) ∧
    (create_ticket (parse_ticket_create b) u next_id now db).1.user_id = u.id := by
  refine ⟨fun h => by simp [create_ticket, parse_ticket_create, h],
    fun h => by simp [create_ticket, parse_ticket_create, h], rfl⟩

/-- Witness for C9: a body carrying only title and description produces an
open, medium-priority ticket owned by alice. -/
theorem c9_create_defaults_witness :
    (create_ticket (parse_ticket_create title_only_body) alice_user 9 0 demo_db).1.status =
      TicketStatus.OPEN ∧
    (create_ticket (parse_ticket_create title_only_body) alice_user 9 0 demo_db).1.priority =
      TicketPriority.MEDIUM ∧
    (create_ticket (parse_ticket_create title_only_body) alice_user 9 0 demo_db).1.user_id =
      alice_user.id := by
  have h := c9_create_defaults title_only_body alice_user 9 0 demo_db
  exact ⟨h.1 rfl, h.2.1 rfl, h.2.2⟩

theorem map_identity_replace_first (pfn : Ticket → Bool) (payload : TicketUpdate)
    (l : List Ticket) (t0 : Ticket) (h : l.find? pfn = some t0) :
    (replace_first pfn (apply_update t0 payload) l).map
        (fun t => (t.id, t.user_id, t.created_at)) =
      l.map (fun t => (t.id, t.user_id, t.created_at)) := by
  induction l with
  | nil => simp at h
  | cons x xs ih =>
    cases hp : pfn x
    · rw [List.find?_cons_of_neg _ (by simp [hp])] at h
      simp only [replace_first, hp, Bool.false_eq_true, if_false, List.map_cons]
      rw [ih h]
    · rw [List.find?_cons_of_pos _ hp] at h
      have hx : x = t0 := Option.some.inj h
      subst hx
      simp [replace_first, hp, apply_update]

/-- C10: the update operation never changes a ticket's id, owning user or
creation timestamp, whatever the request body: the stored table keeps every
row's (id, user_id, created_at) triple, and the returned ticket keeps the
triple of the row it updated - so ownership fixed at creation is preserved. -/
theorem c10_update_preserves_identity (ticket_id : Nat) (payload : TicketUpdate)
    (u : User) (db : DB) :
    ((update_ticket ticket_id payload u db).2).tickets.map
        (fun t => (t.id, t.user_id, t.created_at)) =
      db.tickets.map (fun t => (t.id, t.user_id, t.created_at)) ∧
    (∀ t2, (update_ticket ticket_id payload u db).1 = Except.ok t2 →
      ∃ t0, db.tickets.find? (owned_match ticket_id u) = some t0 ∧
        t2.id = t0.id ∧ t2.user_id = t0.user_id ∧ t2.created_at = t0.created_at) := by
  rcases hfind : db.tickets.find? (owned_match ticket_id u) with _ | t0
  · refine ⟨by simp [update_ticket, hfind], ?_⟩
    intro t2 hok
    simp [update_ticket, hfind] at hok
  · refine ⟨?_, ?_⟩
    · have : (update_ticket ticket_id payload u db).2.tickets =
        replace_first (owned_match ticket_id u) (apply_update t0 payload) db.tickets := by
        simp [update_ticket, hfind]
      rw [this]
      exact map_identity_replace_first (owned_match ticket_id u) payload db.tickets t0 hfind
    · intro t2 hok
      simp [update_ticket, hfind] at hok
      exact ⟨t0, rfl, by rw [← hok]; rfl, by rw [← hok]; rfl, by rw [← hok]; rfl⟩

/-- Witness for C10: alice's status-only update of her ticket leaves the
stored table's (id, user_id, created_at) triples unchanged, and the returned
ticket keeps id 7, owner 1 and the original creation timestamp. -/
theorem c10_update_preserves_identity_witness :
    ((update_ticket 7 status_only_update alice_user demo_db).2).tickets.map
        (fun t => (t.id, t.user_id, t.created_at)) =
      demo_db.tickets.map (fun t => (t.id, t.user_id, t.created_at)) ∧
    (∃ t0, demo_db.tickets.find? (owned_match 7 alice_user) = some t0 ∧
      (apply_update demo_ticket status_only_update).id = t0.id ∧
      (apply_update demo_ticket status_only_update).user_id = t0.user_id ∧
      (apply_update demo_ticket status_only_update).created_at = t0.created_at) := by
  have h := c10_update_preserves_identity 7 status_only_update alice_user demo_db
  exact ⟨h.1, h.2 (apply_update demo_ticket status_only_update) rfl⟩

end TicketingSystem
